import Mathlib

/-!
Verification development for the moltworker repository.

Part 1 embeds `src/scripts/configure-multi-provider.js` (the only executable
source file under `src/`): a Node script that reads an OpenClaw JSON config,
installs two AI-Gateway provider entries, defaults the agent model, and
writes the config back.  JavaScript semantics that matter and are modelled
explicitly: `||`-defaulting uses JS truthiness; property reads on `null` or
`undefined` throw a TypeError; property writes on primitive values are silent
no-ops in sloppy mode; optional chaining (`?.`) short-circuits on `null` and
`undefined`; absent environment variables and empty strings are both falsy.

Part 2 models, from the specification, the gateway/sync core (Mount Manager,
Restore Policy, Sync Engine, Process Lifecycle Manager, Readiness Waiter)
whose TypeScript sources are not present under `src/`.
-/

/-- A JSON value, as produced by `JSON.parse`.  Objects keep their fields as
an association list in insertion order, matching JS object semantics after
parsing (duplicate keys cannot survive `JSON.parse`). -/
inductive Json where
  | null : Json
  | bool : Bool → Json
  | num : Int → Json
  | str : String → Json
  | arr : List Json → Json
  | obj : List (String × Json) → Json
  deriving Repr

/-- Look up a key in an association list (first match), as JS property read
on a plain object. -/
def lookupKey {α : Type} : List (String × α) → String → Option α
  | [], _ => none
  | (k', v) :: rest, k => if k' = k then some v else lookupKey rest k

/-- Set a key in an association list: replace the binding in place if the key
is present, append otherwise — JS property assignment on a plain object. -/
def setKey {α : Type} : List (String × α) → String → α → List (String × α)
  | [], k, v => [(k, v)]
  | (k', v') :: rest, k, v =>
      if k' = k then (k', v) :: rest else (k', v') :: setKey rest k v

theorem lookupKey_setKey_self {α : Type} (fs : List (String × α)) (k : String) (v : α) :
    lookupKey (setKey fs k v) k = some v := by
  induction fs with
  | nil => simp [lookupKey, setKey]
  | cons hd tl ih =>
      obtain ⟨k', v'⟩ := hd
      by_cases hk : k' = k
      · simp [setKey, lookupKey, hk]
      · simp [setKey, lookupKey, hk, ih]

theorem lookupKey_setKey_ne {α : Type} (fs : List (String × α)) {k q : String} (v : α)
    (h : k ≠ q) : lookupKey (setKey fs k v) q = lookupKey fs q := by
  induction fs with
  | nil => simp [lookupKey, setKey, fun hh => h hh]
  | cons hd tl ih =>
      obtain ⟨k', v'⟩ := hd
      by_cases hk : k' = k
      · subst hk
        simp [setKey, lookupKey, h]
      · simp [setKey, lookupKey, hk, ih]

theorem setKey_setKey {α : Type} (fs : List (String × α)) (k : String) (a b : α) :
    setKey (setKey fs k a) k b = setKey fs k b := by
  induction fs with
  | nil => simp [setKey]
  | cons hd tl ih =>
      obtain ⟨k', v'⟩ := hd
      by_cases hk : k' = k
      · simp [setKey, hk]
      · simp [setKey, hk, ih]

/-- JS truthiness of a JSON value: `null`, `false`, `0` and `""` are falsy;
arrays and objects are always truthy. -/
def truthy : Json → Bool
  | .null => false
  | .bool b => b
  | .num n => n != 0
  | .str s => !(s == "")
  | .arr _ => true
  | .obj _ => true

/-- Truthiness of a possibly-`undefined` value (`none` models JS `undefined`). -/
def truthyOpt : Option Json → Bool
  | none => false
  | some j => truthy j

/-- `x || {}`: keep `x` when truthy, otherwise an empty object literal. -/
def orDefault : Option Json → Json
  | none => .obj []
  | some j => if truthy j then j else .obj []

/-- Property read `base.k`.  Reading a property of `null` throws a TypeError
(`Except.error`); reading from a primitive or array yields `undefined`
(`none`); reading from an object is association-list lookup. -/
def readProp : Json → String → Except Unit (Option Json)
  | .null, _ => .error ()
  | .obj fs, k => .ok (lookupKey fs k)
  | _, _ => .ok none

/-- Property write `base.k = v`.  Writing to `null` throws; writing to a
primitive is a silent no-op in sloppy mode; writing to an object updates the
association list.  (Named-property writes on arrays are modelled as no-ops:
`JSON.stringify` drops array named properties, and no claim below touches an
array at a written position.) -/
def writeProp : Json → String → Json → Except Unit Json
  | .null, _, _ => .error ()
  | .obj fs, k, v => .ok (.obj (setKey fs k v))
  | j, _, _ => .ok j

/-- Property read on a possibly-`undefined` base: `undefined.k` throws. -/
def readPropOpt : Option Json → String → Except Unit (Option Json)
  | none, _ => .error ()
  | some j, k => readProp j k

/-- Property write on a possibly-`undefined` base: `undefined.k = v` throws. -/
def writePropOpt : Option Json → String → Json → Except Unit Json
  | none, _, _ => .error ()
  | some j, k, v => writeProp j k v

/-- Optional chaining `base?.k`: `null` and `undefined` short-circuit to
`undefined`; otherwise a plain (non-throwing) property read. -/
def optChain : Option Json → String → Option Json
  | none, _ => none
  | some .null, _ => none
  | some (.obj fs), k => lookupKey fs k
  | some _, _ => none

/-- The three required environment variables of the script
(`CF_AI_GATEWAY_ACCOUNT_ID`, `CF_AI_GATEWAY_GATEWAY_ID`,
`CLOUDFLARE_AI_GATEWAY_API_KEY`); `none` models an unset variable. -/
structure Env where
  accountId : Option String
  gatewayId : Option String
  apiKey : Option String

/-- JS `!v` for an env var is false exactly when the variable is set to a
non-empty string. -/
def present : Option String → Bool
  | none => false
  | some s => !(s == "")

/-- The guard `if (!accountId || !gatewayId || !apiKey)` (script lines 37-40),
negated: all three env vars are set and non-empty. -/
def envOk (e : Env) : Bool :=
  present e.accountId && present e.gatewayId && present e.apiKey

/-- One model entry `{ id, name, contextWindow, maxTokens }`. -/
def modelEntry (id name : String) (contextWindow maxTokens : Int) : Json :=
  .obj [("id", .str id), ("name", .str name),
        ("contextWindow", .num contextWindow), ("maxTokens", .num maxTokens)]

/-- `anthropicModels` (script lines 45-49). -/
def anthropicModels : Json :=
  .arr [modelEntry "claude-opus-4-6" "Claude Opus 4.6" 200000 16000,
        modelEntry "claude-sonnet-4-5-20250929" "Claude Sonnet 4.5" 200000 16000,
        modelEntry "claude-haiku-4-5-20251001" "Claude Haiku 4.5" 200000 16000]

/-- `openaiModels` (script lines 63-68). -/
def openaiModels : Json :=
  .arr [modelEntry "gpt-4o" "GPT-4o" 128000 16000,
        modelEntry "gpt-4o-mini" "GPT-4o Mini" 128000 16000,
        modelEntry "o1" "o1" 128000 16000,
        modelEntry "o1-mini" "o1 Mini" 128000 16000]

/-- `https://gateway.ai.cloudflare.com/v1/${accountId}/${gatewayId}/<provider>`. -/
def gatewayBaseUrl (accountId gatewayId provider : String) : String :=
  "https://gateway.ai.cloudflare.com/v1/" ++ accountId ++ "/" ++ gatewayId ++ "/" ++ provider

/-- The `ai-gateway-anthropic` provider object (script lines 51-57). -/
def anthropicProvider (accountId gatewayId apiKey : String) : Json :=
  .obj [("baseUrl", .str (gatewayBaseUrl accountId gatewayId "anthropic")),
        ("apiKey", .str apiKey),
        ("api", .str "anthropic-messages"),
        ("models", anthropicModels)]

/-- The `ai-gateway-openai` provider object (script lines 70-76). -/
def openaiProvider (accountId gatewayId apiKey : String) : Json :=
  .obj [("baseUrl", .str (gatewayBaseUrl accountId gatewayId "openai")),
        ("apiKey", .str apiKey),
        ("api", .str "openai-completions"),
        ("models", openaiModels)]

/-- `{ primary: 'ai-gateway-anthropic/claude-sonnet-4-5-20250929' }`
(script line 85). -/
def defaultModelJson : Json :=
  .obj [("primary", .str "ai-gateway-anthropic/claude-sonnet-4-5-20250929")]

/-- Script lines 30-31:
`config.models = config.models || {}` and
`config.models.providers = config.models.providers || {}`. -/
def defaultModelsProviders (c0 : Json) : Except Unit Json := do
  let mv ← readProp c0 "models"
  let c1 ← writeProp c0 "models" (orDefault mv)
  let mv1 ← readProp c1 "models"
  let pv ← readPropOpt mv1 "providers"
  let m2 ← writePropOpt mv1 "providers" (orDefault pv)
  writeProp c1 "models" m2

/-- One provider installation `config.models.providers[key] = v`
(script lines 52 and 71).  The functional write-back of the mutated
`providers` and `models` objects is equivalent to JS in-place mutation
because a freshly parsed JSON tree has no aliasing. -/
def assignProvider (c : Json) (key : String) (v : Json) : Except Unit Json := do
  let mv ← readProp c "models"
  let pv ← readPropOpt mv "providers"
  let p2 ← writePropOpt pv key v
  let m2 ← writePropOpt mv "providers" p2
  writeProp c "models" m2

/-- Script lines 82-87: `if (!config.agents?.defaults?.model) { ... }`. -/
def setDefaultModelIfUnset (c : Json) : Except Unit Json := do
  let av0 ← readProp c "agents"
  let mv0 := optChain (optChain av0 "defaults") "model"
  if truthyOpt mv0 then
    pure c
  else do
    let av ← readProp c "agents"
    let c1 ← writeProp c "agents" (orDefault av)
    let av1 ← readProp c1 "agents"
    let dv ← readPropOpt av1 "defaults"
    let a2 ← writePropOpt av1 "defaults" (orDefault dv)
    let c2 ← writeProp c1 "agents" a2
    let av2 ← readProp c2 "agents"
    let dv2 ← readPropOpt av2 "defaults"
    let d2 ← writePropOpt dv2 "model" defaultModelJson
    let a3 ← writePropOpt av2 "defaults" d2
    writeProp c2 "agents" a3

/-- Outcome of one run of the script on a given parsed config:
`skipped` is `process.exit(0)` at the env guard (nothing written),
`written w` is a successful run that wrote `w` to the config path, and
`crashed` is an uncaught TypeError (nonzero exit, nothing written). -/
inductive ScriptResult where
  | skipped : ScriptResult
  | written : Json → ScriptResult
  | crashed : ScriptResult
  deriving Repr

/-- Process exit status of each outcome (`node` exits 1 on an uncaught
exception). -/
def scriptExitCode : ScriptResult → Nat
  | .skipped => 0
  | .written _ => 0
  | .crashed => 1

/-- The whole script, on the parsed contents `config0` of the config file
(a missing or unparseable file yields `Json.obj []`, script lines 22-28).
Lines 30-31 run before the env guard (lines 33-40); the provider
installation and default-model logic run after it; line 92 writes the
result back. -/
def runScript (env : Env) (config0 : Json) : ScriptResult :=
  match defaultModelsProviders config0 with
  | .error _ => .crashed
  | .ok c2 =>
    if envOk env then
      let a := env.accountId.getD ""
      let g := env.gatewayId.getD ""
      let k := env.apiKey.getD ""
      match (do
        let c3 ← assignProvider c2 "ai-gateway-anthropic" (anthropicProvider a g k)
        let c4 ← assignProvider c3 "ai-gateway-openai" (openaiProvider a g k)
        setDefaultModelIfUnset c4 : Except Unit Json) with
      | .error _ => .crashed
      | .ok w => .written w
    else .skipped

/-- Path lookup in a JSON tree (plain object traversal). -/
def getAtPath : Json → List String → Option Json
  | j, [] => some j
  | .obj fs, k :: rest =>
      match lookupKey fs k with
      | some v => getAtPath v rest
      | none => none
  | _, _ :: _ => none

/-- The value at `path` inside the config a script run wrote, if it wrote one. -/
def writtenAt : ScriptResult → List String → Option Json
  | .written w, path => getAtPath w path
  | _, _ => none

/-- Whether a script run wrote a config file. -/
def isWritten : ScriptResult → Bool
  | .written _ => true
  | _ => false

/-- Non-throwing property read (valid for any base other than `null`). -/
def getProp : Json → String → Option Json
  | .obj fs, k => lookupKey fs k
  | _, _ => none

/-- Non-throwing property write (valid for any base other than `null`):
updates objects, silently no-ops on primitives. -/
def setProp : Json → String → Json → Json
  | .obj fs, k, v => .obj (setKey fs k v)
  | j, _, _ => j

theorem readProp_obj (fs : List (String × Json)) (k : String) :
    readProp (Json.obj fs) k = .ok (lookupKey fs k) := rfl

theorem writeProp_obj (fs : List (String × Json)) (k : String) (v : Json) :
    writeProp (Json.obj fs) k v = .ok (Json.obj (setKey fs k v)) := rfl

theorem readPropOpt_some (j : Json) (k : String) :
    readPropOpt (some j) k = readProp j k := rfl

theorem writePropOpt_some (j : Json) (k : String) (v : Json) :
    writePropOpt (some j) k v = writeProp j k v := rfl

theorem except_bind_ok {ε α β : Type} (a : α) (f : α → Except ε β) :
    Except.bind (.ok a) f = f a := rfl

theorem readProp_ne_null {j : Json} (h : j ≠ Json.null) (k : String) :
    readProp j k = .ok (getProp j k) := by
  cases j <;> simp_all [readProp, getProp]

theorem writeProp_ne_null {j : Json} (h : j ≠ Json.null) (k : String) (v : Json) :
    writeProp j k v = .ok (setProp j k v) := by
  cases j <;> simp_all [writeProp, setProp]

theorem orDefault_ne_null (o : Option Json) : orDefault o ≠ Json.null := by
  cases o with
  | none => simp [orDefault]
  | some j =>
      cases j with
      | null => simp [orDefault, truthy]
      | bool b => cases b <;> simp [orDefault, truthy]
      | num n => by_cases hn : n = 0 <;> simp [orDefault, truthy, hn]
      | str s => by_cases hs : s = "" <;> simp [orDefault, truthy, hs]
      | arr xs => simp [orDefault, truthy]
      | obj fs => simp [orDefault, truthy]

/-- Normal form of script lines 30-31 on an object config: `models` becomes
`models || {}` with its `providers` field defaulted in turn. -/
theorem defaultModelsProviders_obj (fs : List (String × Json)) :
    defaultModelsProviders (Json.obj fs) =
      .ok (Json.obj (setKey fs "models"
        (setProp (orDefault (lookupKey fs "models")) "providers"
          (orDefault (getProp (orDefault (lookupKey fs "models")) "providers"))))) := by
  have hm := orDefault_ne_null (lookupKey fs "models")
  simp only [defaultModelsProviders, bind, readProp_obj, writeProp_obj,
    readPropOpt_some, writePropOpt_some, except_bind_ok, lookupKey_setKey_self,
    readProp_ne_null hm, writeProp_ne_null hm, setKey_setKey]

/-- Normal form of one provider installation (script lines 52 / 71) when
`models` and `models.providers` are present objects. -/
theorem assignProvider_obj (gs : List (String × Json)) (key : String) (v : Json)
    (M P : Json) (hM : lookupKey gs "models" = some M) (hMnn : M ≠ Json.null)
    (hP : getProp M "providers" = some P) (hPnn : P ≠ Json.null) :
    assignProvider (Json.obj gs) key v =
      .ok (Json.obj (setKey gs "models" (setProp M "providers" (setProp P key v)))) := by
  simp only [assignProvider, bind, readProp_obj, writeProp_obj, readPropOpt_some,
    writePropOpt_some, except_bind_ok, hM, readProp_ne_null hMnn, hP,
    writeProp_ne_null hPnn, writeProp_ne_null hMnn]

/-- Provider installation on a config already in the shape produced by
lines 30-31: it updates exactly the `providers` association list. -/
theorem assignProvider_normal (fs mf pf : List (String × Json)) (key : String) (v : Json) :
    assignProvider
      (Json.obj (setKey fs "models" (Json.obj (setKey mf "providers" (Json.obj pf))))) key v =
      .ok (Json.obj (setKey fs "models"
        (Json.obj (setKey mf "providers" (Json.obj (setKey pf key v)))))) := by
  rw [assignProvider_obj _ key v (Json.obj (setKey mf "providers" (Json.obj pf))) (Json.obj pf)
    (lookupKey_setKey_self ..) (by simp) (by simp [getProp, lookupKey_setKey_self]) (by simp)]
  simp only [setProp, setKey_setKey]

/-- Script lines 82-87 when `config.agents?.defaults?.model` is truthy:
the config is left untouched. -/
theorem setDefaultModel_truthy (gs : List (String × Json))
    (h : truthyOpt (optChain (optChain (lookupKey gs "agents") "defaults") "model") = true) :
    setDefaultModelIfUnset (Json.obj gs) = .ok (Json.obj gs) := by
  simp only [setDefaultModelIfUnset, bind, readProp_obj, except_bind_ok, h,
    if_true, pure, Except.pure]

/-- Script lines 82-87 when `config.agents?.defaults?.model` is absent or
falsy and `agents || {}` is an object: `agents.defaults.model` is written
(through the `|| {}` defaulting of `agents` and `agents.defaults`). -/
theorem setDefaultModel_falsy (gs afs : List (String × Json))
    (h : truthyOpt (optChain (optChain (lookupKey gs "agents") "defaults") "model") = false)
    (hA : orDefault (lookupKey gs "agents") = Json.obj afs) :
    setDefaultModelIfUnset (Json.obj gs) =
      .ok (Json.obj (setKey gs "agents" (Json.obj (setKey afs "defaults"
        (setProp (orDefault (lookupKey afs "defaults")) "model" defaultModelJson))))) := by
  have hD := orDefault_ne_null (lookupKey afs "defaults")
  simp only [setDefaultModelIfUnset, bind, readProp_obj, writeProp_obj,
    readPropOpt_some, writePropOpt_some, except_bind_ok, h, Bool.false_eq_true,
    if_false, hA, lookupKey_setKey_self, readProp_ne_null hD,
    writeProp_ne_null hD, getProp, setKey_setKey, setProp]

/-- The fields of an optional JSON value that is an object, `[]` otherwise. -/
def fieldsOf : Option Json → List (String × Json)
  | some (.obj gs) => gs
  | _ => []

/-- A field position the script treats as a container is `well-shaped` when it
is absent or holds a JSON object (the shapes under which the script's `|| {}`
defaulting and subsequent property writes behave as plain object updates). -/
def okShape (o : Option Json) : Prop :=
  o = none ∨ ∃ gs, o = some (Json.obj gs)

theorem orDefault_okShape {o : Option Json} (h : okShape o) :
    orDefault o = Json.obj (fieldsOf o) := by
  rcases h with rfl | ⟨gs, rfl⟩
  · rfl
  · simp [orDefault, fieldsOf, truthy]

/-- Input `models` fields (empty when absent). -/
def mfF (fs : List (String × Json)) : List (String × Json) :=
  fieldsOf (lookupKey fs "models")

/-- Input `models.providers` fields. -/
def pfF (fs : List (String × Json)) : List (String × Json) :=
  fieldsOf (lookupKey (mfF fs) "providers")

/-- Input `agents` fields. -/
def afF (fs : List (String × Json)) : List (String × Json) :=
  fieldsOf (lookupKey fs "agents")

/-- Input `agents.defaults` fields. -/
def dfF (fs : List (String × Json)) : List (String × Json) :=
  fieldsOf (lookupKey (afF fs) "defaults")

/-- The value of `config.agents?.defaults?.model` on the input config. -/
def modelChain (fs : List (String × Json)) : Option Json :=
  optChain (optChain (lookupKey fs "agents") "defaults") "model"

/-- The `providers` fields after the script installs the two gateway
providers. -/
def providersOut (env : Env) (fs : List (String × Json)) : List (String × Json) :=
  setKey (setKey (pfF fs) "ai-gateway-anthropic"
      (anthropicProvider (env.accountId.getD "") (env.gatewayId.getD "") (env.apiKey.getD "")))
    "ai-gateway-openai"
    (openaiProvider (env.accountId.getD "") (env.gatewayId.getD "") (env.apiKey.getD ""))

/-- The `models` fields of the written config. -/
def modelsFieldsOut (env : Env) (fs : List (String × Json)) : List (String × Json) :=
  setKey (mfF fs) "providers" (.obj (providersOut env fs))

/-- The `agents` fields of the written config when the default model is set. -/
def agentsFieldsOut (fs : List (String × Json)) : List (String × Json) :=
  setKey (afF fs) "defaults"
    (.obj (setKey (dfF fs) "model" defaultModelJson))

/-- The fields of the config the script writes, for a well-shaped object
input with all env vars present. -/
def outFields (env : Env) (fs : List (String × Json)) : List (String × Json) :=
  if truthyOpt (modelChain fs) then
    setKey fs "models" (.obj (modelsFieldsOut env fs))
  else
    setKey (setKey fs "models" (.obj (modelsFieldsOut env fs))) "agents"
      (.obj (agentsFieldsOut fs))

/-- With all env vars present, on an object config whose `models`,
`models.providers`, `agents` and `agents.defaults` are each absent or
objects, the script completes and writes exactly `outFields`. -/
theorem runScript_obj_eq (env : Env) (fs : List (String × Json))
    (hE : envOk env = true)
    (hm : okShape (lookupKey fs "models"))
    (hp : okShape (lookupKey (mfF fs) "providers"))
    (ha : okShape (lookupKey fs "agents"))
    (hd : okShape (lookupKey (afF fs) "defaults")) :
    runScript env (Json.obj fs) = .written (Json.obj (outFields env fs)) := by
  simp only [mfF] at hp
  simp only [afF] at hd
  set a := env.accountId.getD "" with ha2
  set g := env.gatewayId.getD "" with hg2
  set k := env.apiKey.getD "" with hk2
  set mf := fieldsOf (lookupKey fs "models") with hmf
  set pf := fieldsOf (lookupKey mf "providers") with hpf
  set af := fieldsOf (lookupKey fs "agents") with haf
  set df := fieldsOf (lookupKey af "defaults") with hdf
  have h1 : defaultModelsProviders (Json.obj fs) =
      .ok (Json.obj (setKey fs "models" (Json.obj (setKey mf "providers" (Json.obj pf))))) := by
    rw [defaultModelsProviders_obj, orDefault_okShape hm, ← hmf]
    simp only [getProp]
    rw [orDefault_okShape hp, ← hpf]
    rfl
  have h2 := assignProvider_normal fs mf pf "ai-gateway-anthropic" (anthropicProvider a g k)
  have h3 := assignProvider_normal fs mf (setKey pf "ai-gateway-anthropic" (anthropicProvider a g k))
    "ai-gateway-openai" (openaiProvider a g k)
  have hAgentsKey : ∀ X : Json, lookupKey (setKey fs "models" X) "agents" = lookupKey fs "agents" :=
    fun X => lookupKey_setKey_ne _ _ (by decide)
  set pf2 := setKey (setKey pf "ai-gateway-anthropic" (anthropicProvider a g k))
    "ai-gateway-openai" (openaiProvider a g k) with hpf2
  set M4 : Json := Json.obj (setKey mf "providers" (Json.obj pf2)) with hM4
  have h4 : setDefaultModelIfUnset (Json.obj (setKey fs "models" M4)) =
      .ok (Json.obj (outFields env fs)) := by
    by_cases hT : truthyOpt (modelChain fs) = true
    · rw [setDefaultModel_truthy]
      · simp only [outFields, hT, if_true, modelsFieldsOut, providersOut, mfF, pfF,
          ← hmf, ← hpf, ← ha2, ← hg2, ← hk2, ← hpf2, ← hM4]
      · rw [hAgentsKey]
        simpa only [modelChain] using hT
    · rw [setDefaultModel_falsy _ af]
      · rw [orDefault_okShape hd, ← hdf]
        simp only [setProp, outFields, hT, if_false, Bool.false_eq_true,
          modelsFieldsOut, providersOut, agentsFieldsOut, mfF, pfF, afF, dfF,
          ← hmf, ← hpf, ← haf, ← hdf, ← ha2, ← hg2, ← hk2, ← hpf2, ← hM4]
      · rw [hAgentsKey]
        simpa only [modelChain, Bool.not_eq_true] using hT
      · rw [hAgentsKey, orDefault_okShape ha, ← haf]
  simp only [runScript, h1, hE, if_true, bind, except_bind_ok, ← ha2, ← hg2, ← hk2,
    h2, h3, ← hpf2, ← hM4, h4]

theorem getAtPath_one (X : List (String × Json)) (q : String) :
    getAtPath (Json.obj X) [q] = lookupKey X q := by
  cases h : lookupKey X q <;> simp [getAtPath, h]

theorem getAtPath_obj_cons (X : List (String × Json)) (k : String) (rest : List String) :
    getAtPath (Json.obj X) (k :: rest) =
      (match lookupKey X k with
       | some v => getAtPath v rest
       | none => none) := rfl

theorem lookupKey_outFields_models (env : Env) (fs : List (String × Json)) :
    lookupKey (outFields env fs) "models" = some (Json.obj (modelsFieldsOut env fs)) := by
  unfold outFields
  split
  · exact lookupKey_setKey_self ..
  · rw [lookupKey_setKey_ne _ _ (by decide)]
    exact lookupKey_setKey_self ..

theorem lookupKey_outFields_other (env : Env) (fs : List (String × Json)) (q : String)
    (h1 : q ≠ "models") (h2 : q ≠ "agents") :
    lookupKey (outFields env fs) q = lookupKey fs q := by
  unfold outFields
  split
  · exact lookupKey_setKey_ne _ _ (Ne.symm h1)
  · rw [lookupKey_setKey_ne _ _ (Ne.symm h2)]
    exact lookupKey_setKey_ne _ _ (Ne.symm h1)

theorem lookupKey_outFields_agents_truthy (env : Env) (fs : List (String × Json))
    (hT : truthyOpt (modelChain fs) = true) :
    lookupKey (outFields env fs) "agents" = lookupKey fs "agents" := by
  unfold outFields
  rw [if_pos hT]
  exact lookupKey_setKey_ne _ _ (by decide)

theorem lookupKey_outFields_agents_falsy (env : Env) (fs : List (String × Json))
    (hT : truthyOpt (modelChain fs) = false) :
    lookupKey (outFields env fs) "agents" = some (Json.obj (agentsFieldsOut fs)) := by
  unfold outFields
  rw [if_neg (by simp [hT])]
  exact lookupKey_setKey_self ..

/-- Frame at depth 2 under `models`: every key other than `providers` keeps
its input value. -/
theorem modelsPath_frame (env : Env) (fs : List (String × Json))
    (hm : okShape (lookupKey fs "models")) (q : String) (hq : q ≠ "providers") :
    getAtPath (Json.obj (outFields env fs)) ["models", q] =
      getAtPath (Json.obj fs) ["models", q] := by
  have hL : getAtPath (Json.obj (outFields env fs)) ["models", q] = lookupKey (mfF fs) q := by
    rw [getAtPath_obj_cons, lookupKey_outFields_models]
    show getAtPath (Json.obj (modelsFieldsOut env fs)) [q] = _
    rw [getAtPath_one, modelsFieldsOut, lookupKey_setKey_ne _ _ (Ne.symm hq)]
  rw [hL, getAtPath_obj_cons]
  rcases hm with h | ⟨mfs, h⟩ <;> rw [h] <;> simp [mfF, h, fieldsOf, lookupKey, getAtPath_one]

/-- Frame at depth 3 under `models.providers`: every key other than the two
gateway providers keeps its input value. -/
theorem providersPath_frame (env : Env) (fs : List (String × Json))
    (hm : okShape (lookupKey fs "models"))
    (hp : okShape (lookupKey (mfF fs) "providers")) (q : String)
    (h1 : q ≠ "ai-gateway-anthropic") (h2 : q ≠ "ai-gateway-openai") :
    getAtPath (Json.obj (outFields env fs)) ["models", "providers", q] =
      getAtPath (Json.obj fs) ["models", "providers", q] := by
  have hL : getAtPath (Json.obj (outFields env fs)) ["models", "providers", q] =
      lookupKey (pfF fs) q := by
    rw [getAtPath_obj_cons, lookupKey_outFields_models]
    show getAtPath (Json.obj (modelsFieldsOut env fs)) ["providers", q] = _
    rw [getAtPath_obj_cons, modelsFieldsOut, lookupKey_setKey_self]
    show getAtPath (Json.obj (providersOut env fs)) [q] = _
    rw [getAtPath_one, providersOut, lookupKey_setKey_ne _ _ (Ne.symm h2),
      lookupKey_setKey_ne _ _ (Ne.symm h1)]
  rw [hL, getAtPath_obj_cons]
  rcases hm with h | ⟨mfs, h⟩
  · rw [h]
    simp only [mfF, h, fieldsOf, lookupKey] at hp
    rcases hp with h' | ⟨pfs, h'⟩ <;> simp_all [pfF, mfF, fieldsOf, lookupKey]
  · rw [h]
    show lookupKey (pfF fs) q = getAtPath (Json.obj mfs) ["providers", q]
    rw [getAtPath_obj_cons]
    simp only [mfF, h, fieldsOf] at hp
    rcases hp with h' | ⟨pfs, h'⟩ <;>
      simp_all [pfF, mfF, fieldsOf, getAtPath_one, lookupKey]

/-- Frame at depth 2 under `agents`: every key other than `defaults` keeps
its input value. -/
theorem agentsPath_frame (env : Env) (fs : List (String × Json))
    (ha : okShape (lookupKey fs "agents")) (q : String) (hq : q ≠ "defaults") :
    getAtPath (Json.obj (outFields env fs)) ["agents", q] =
      getAtPath (Json.obj fs) ["agents", q] := by
  by_cases hT : truthyOpt (modelChain fs) = true
  · rw [getAtPath_obj_cons, getAtPath_obj_cons, lookupKey_outFields_agents_truthy env fs hT]
  · have hL : getAtPath (Json.obj (outFields env fs)) ["agents", q] = lookupKey (afF fs) q := by
      rw [getAtPath_obj_cons, lookupKey_outFields_agents_falsy env fs (by simpa using hT)]
      show getAtPath (Json.obj (agentsFieldsOut fs)) [q] = _
      rw [getAtPath_one, agentsFieldsOut, lookupKey_setKey_ne _ _ (Ne.symm hq)]
    rw [hL, getAtPath_obj_cons]
    rcases ha with h | ⟨afs, h⟩ <;> rw [h] <;>
      simp [afF, h, fieldsOf, lookupKey, getAtPath_one]

/-- Frame at depth 3 under `agents.defaults`: every key other than `model`
keeps its input value. -/
theorem defaultsPath_frame (env : Env) (fs : List (String × Json))
    (ha : okShape (lookupKey fs "agents"))
    (hd : okShape (lookupKey (afF fs) "defaults")) (q : String) (hq : q ≠ "model") :
    getAtPath (Json.obj (outFields env fs)) ["agents", "defaults", q] =
      getAtPath (Json.obj fs) ["agents", "defaults", q] := by
  by_cases hT : truthyOpt (modelChain fs) = true
  · rw [getAtPath_obj_cons, getAtPath_obj_cons, lookupKey_outFields_agents_truthy env fs hT]
  · have hL : getAtPath (Json.obj (outFields env fs)) ["agents", "defaults", q] =
        lookupKey (dfF fs) q := by
      rw [getAtPath_obj_cons, lookupKey_outFields_agents_falsy env fs (by simpa using hT)]
      show getAtPath (Json.obj (agentsFieldsOut fs)) ["defaults", q] = _
      rw [getAtPath_obj_cons, agentsFieldsOut, lookupKey_setKey_self]
      show getAtPath (Json.obj (setKey (dfF fs) "model" defaultModelJson)) [q] = _
      rw [getAtPath_one, lookupKey_setKey_ne _ _ (Ne.symm hq)]
    rw [hL, getAtPath_obj_cons]
    rcases ha with h | ⟨afs, h⟩
    · rw [h]
      simp only [afF, h, fieldsOf, lookupKey] at hd
      rcases hd with h' | ⟨dfs, h'⟩ <;> simp_all [dfF, afF, fieldsOf, lookupKey]
    · rw [h]
      show lookupKey (dfF fs) q = getAtPath (Json.obj afs) ["defaults", q]
      rw [getAtPath_obj_cons]
      simp only [afF, h, fieldsOf] at hd
      rcases hd with h' | ⟨dfs, h'⟩ <;>
        simp_all [dfF, afF, fieldsOf, getAtPath_one, lookupKey]

/-- Value of `agents.defaults.model` in the written config: preserved when
the input's value is truthy, otherwise the default-model object. -/
theorem modelPath_out (env : Env) (fs : List (String × Json)) :
    getAtPath (Json.obj (outFields env fs)) ["agents", "defaults", "model"] =
      (if truthyOpt (modelChain fs) then
        getAtPath (Json.obj fs) ["agents", "defaults", "model"]
      else some defaultModelJson) := by
  by_cases hT : truthyOpt (modelChain fs) = true
  · rw [if_pos hT]
    rw [getAtPath_obj_cons, getAtPath_obj_cons, lookupKey_outFields_agents_truthy env fs hT]
  · rw [if_neg hT]
    rw [getAtPath_obj_cons, lookupKey_outFields_agents_falsy env fs (by simpa using hT)]
    show getAtPath (Json.obj (agentsFieldsOut fs)) ["defaults", "model"] = _
    rw [getAtPath_obj_cons, agentsFieldsOut, lookupKey_setKey_self]
    show getAtPath (Json.obj (setKey (dfF fs) "model" defaultModelJson)) ["model"] = _
    rw [getAtPath_one, lookupKey_setKey_self]

/-- Env value with all three gateway variables present and non-empty. -/
def envFull : Env := ⟨some "acct", some "gw", some "key"⟩

/-- Env value with the account id unset. -/
def envNoAccount : Env := ⟨none, some "gw", some "key"⟩

/-- Claim C8 counterexample: with `CF_AI_GATEWAY_ACCOUNT_ID` unset, a config
file whose contents parse to JSON `null` makes the script throw a TypeError
at line 30 (`config.models` read on `null`) before reaching the env guard at
line 37, so the process exits with status 1, not 0.  (Nothing is written, so
the `config unchanged` half of the claim still holds.) -/
theorem c8_counterexample :
    envOk envNoAccount = false ∧
    runScript envNoAccount Json.null = ScriptResult.crashed ∧
    scriptExitCode (runScript envNoAccount Json.null) = 1 := by
  refine ⟨rfl, rfl, rfl⟩

/-- Claim C8 (amended): if any of the three required env vars is absent or
empty, then (a) for every config file that is absent, unparseable, or parses
to a JSON object, the script reaches the guard and exits with status 0
without writing; and (b) whatever the config file parsed to, the script
never writes the config file, leaving any existing config unchanged. -/
theorem c8_missing_env_skips (env : Env) (h : envOk env = false) :
    (∀ fs : List (String × Json),
        runScript env (Json.obj fs) = ScriptResult.skipped ∧
        scriptExitCode (runScript env (Json.obj fs)) = 0) ∧
    (∀ (c0 w : Json), runScript env c0 ≠ ScriptResult.written w) := by
  constructor
  · intro fs
    have h1 := defaultModelsProviders_obj fs
    constructor
    · simp [runScript, h1, h]
    · simp [runScript, h1, h, scriptExitCode]
  · intro c0 w
    cases hs : defaultModelsProviders c0 with
    | error e => simp [runScript, hs]
    | ok c => simp [runScript, hs, h]

/-- Witness for C8: all env vars unset, config file `{"x": "y"}`. -/
theorem c8_missing_env_skips_witness :
    runScript ⟨none, none, none⟩ (Json.obj [("x", Json.str "y")]) = ScriptResult.skipped :=
  ((c8_missing_env_skips ⟨none, none, none⟩ rfl).1 [("x", Json.str "y")]).1

/-- Claim C9 counterexample: the input config
`{"agents": {"defaults": {"model": ""}}}` has `agents.defaults.model`
previously set (to the empty string), yet the written config differs from
the input at that path: the falsy-but-present value is overwritten with the
default model object (script line 82 tests JS truthiness, not presence). -/
theorem c9_counterexample :
    getAtPath (Json.obj [("agents", Json.obj [("defaults", Json.obj [("model", Json.str "")])])])
      ["agents", "defaults", "model"] = some (Json.str "") ∧
    writtenAt (runScript envFull
        (Json.obj [("agents", Json.obj [("defaults", Json.obj [("model", Json.str "")])])]))
      ["agents", "defaults", "model"] = some defaultModelJson ∧
    some defaultModelJson ≠ some (Json.str "") := by
  refine ⟨rfl, rfl, by simp [defaultModelJson]⟩

/-- Claim C9 (amended): for every input config that is a JSON object whose
`models`, `models.providers`, `agents` and `agents.defaults` entries are
each absent or objects, and with all three env vars present, the script
writes a config that differs from the input only at
`models.providers['ai-gateway-anthropic']`,
`models.providers['ai-gateway-openai']`, and — only when the input's
`agents.defaults.model` is absent or JS-falsy — `agents.defaults.model`;
every other key and value of the input, including other entries under
`models.providers`, is preserved unchanged. -/
theorem c9_frame (env : Env) (fs : List (String × Json))
    (hE : envOk env = true)
    (hm : okShape (lookupKey fs "models"))
    (hp : okShape (lookupKey (mfF fs) "providers"))
    (ha : okShape (lookupKey fs "agents"))
    (hd : okShape (lookupKey (afF fs) "defaults")) :
    isWritten (runScript env (Json.obj fs)) = true ∧
    (∀ q, q ≠ "models" → q ≠ "agents" →
      writtenAt (runScript env (Json.obj fs)) [q] = getAtPath (Json.obj fs) [q]) ∧
    (∀ q, q ≠ "providers" →
      writtenAt (runScript env (Json.obj fs)) ["models", q] =
        getAtPath (Json.obj fs) ["models", q]) ∧
    (∀ q, q ≠ "ai-gateway-anthropic" → q ≠ "ai-gateway-openai" →
      writtenAt (runScript env (Json.obj fs)) ["models", "providers", q] =
        getAtPath (Json.obj fs) ["models", "providers", q]) ∧
    (∀ q, q ≠ "defaults" →
      writtenAt (runScript env (Json.obj fs)) ["agents", q] =
        getAtPath (Json.obj fs) ["agents", q]) ∧
    (∀ q, q ≠ "model" →
      writtenAt (runScript env (Json.obj fs)) ["agents", "defaults", q] =
        getAtPath (Json.obj fs) ["agents", "defaults", q]) ∧
    (truthyOpt (modelChain fs) = true →
      writtenAt (runScript env (Json.obj fs)) ["agents", "defaults", "model"] =
        getAtPath (Json.obj fs) ["agents", "defaults", "model"]) := by
  have hrun := runScript_obj_eq env fs hE hm hp ha hd
  rw [hrun]
  refine ⟨rfl, ?_, ?_, ?_, ?_, ?_, ?_⟩
  · intro q h1 h2
    show getAtPath (Json.obj (outFields env fs)) [q] = _
    rw [getAtPath_one, getAtPath_one, lookupKey_outFields_other env fs q h1 h2]
  · intro q hq
    exact modelsPath_frame env fs hm q hq
  · intro q h1 h2
    exact providersPath_frame env fs hm hp q h1 h2
  · intro q hq
    exact agentsPath_frame env fs ha q hq
  · intro q hq
    exact defaultsPath_frame env fs ha hd q hq
  · intro hT
    show getAtPath (Json.obj (outFields env fs)) ["agents", "defaults", "model"] = _
    rw [modelPath_out, if_pos hT]

/-- Witness for C9: env present, config `{"keep": "v"}`; the untouched key
`keep` is preserved in the written config. -/
theorem c9_frame_witness :
    writtenAt (runScript envFull (Json.obj [("keep", Json.str "v")])) ["keep"] =
      getAtPath (Json.obj [("keep", Json.str "v")]) ["keep"] :=
  ((c9_frame envFull [("keep", Json.str "v")] rfl (Or.inl rfl) (Or.inl rfl)
    (Or.inl rfl) (Or.inl rfl)).2.1) "keep" (by decide) (by decide)

/-- Claim C10 counterexample: the input config
`{"agents": {"defaults": {"model": false}}}` has `agents.defaults.model`
present (set to `false`), yet the script overwrites it with the default
model object: line 82 checks `!config.agents?.defaults?.model`, which is
true for any falsy present value, not only for an absent one. -/
theorem c10_counterexample :
    getAtPath (Json.obj [("agents", Json.obj [("defaults", Json.obj [("model", Json.bool false)])])])
      ["agents", "defaults", "model"] = some (Json.bool false) ∧
    writtenAt (runScript envFull
        (Json.obj [("agents", Json.obj [("defaults", Json.obj [("model", Json.bool false)])])]))
      ["agents", "defaults", "model"] = some defaultModelJson ∧
    some defaultModelJson ≠ some (Json.bool false) := by
  refine ⟨rfl, rfl, by simp [defaultModelJson]⟩

/-- Claim C10 (amended): on a well-shaped object config with env vars
present, the written `agents.defaults.model` is the input's own value
whenever that value is truthy (a truthy present value is never overwritten),
and is `{ primary: 'ai-gateway-anthropic/claude-sonnet-4-5-20250929' }`
exactly when the input's `agents.defaults.model` is absent or JS-falsy
(`null`, `false`, `0`, `""`). -/
theorem c10_default_model (env : Env) (fs : List (String × Json))
    (hE : envOk env = true)
    (hm : okShape (lookupKey fs "models"))
    (hp : okShape (lookupKey (mfF fs) "providers"))
    (ha : okShape (lookupKey fs "agents"))
    (hd : okShape (lookupKey (afF fs) "defaults")) :
    writtenAt (runScript env (Json.obj fs)) ["agents", "defaults", "model"] =
      (if truthyOpt (modelChain fs) then
        getAtPath (Json.obj fs) ["agents", "defaults", "model"]
      else some defaultModelJson) := by
  rw [runScript_obj_eq env fs hE hm hp ha hd]
  exact modelPath_out env fs

/-- Witness for C10: env present, empty config object; `agents.defaults.model`
is absent, so the written config carries the default model. -/
theorem c10_default_model_witness :
    writtenAt (runScript envFull (Json.obj [])) ["agents", "defaults", "model"] =
      (if truthyOpt (modelChain []) then
        getAtPath (Json.obj []) ["agents", "defaults", "model"]
      else some defaultModelJson) :=
  c10_default_model envFull [] rfl (Or.inl rfl) (Or.inl rfl) (Or.inl rfl) (Or.inl rfl)

/-!
Part 2: the gateway/sync core.  The TypeScript sources the specification
describes (`src/gateway/r2.ts`, `sync.ts`, `process.ts`, `utils.ts`) are not
present under `src/`; the definitions below are modelled from the
specification text and the claims are settled against them.
-/

/-- Modelled from the spec: the Mount Manager state (`src/gateway/r2.ts`,
missing from `src/`).  `mountTableMounted` is the actual mount-table state
the spec requires `ensureMounted` to consult (never the mount tool's error
text); `attempts` counts actual mount operations performed;
`mountPointExists` records whether the local mount-point directory exists. -/
structure MountState where
  mountTableMounted : Bool
  attempts : Nat
  mountPointExists : Bool
  deriving Repr, DecidableEq

/-- Result of `ensureMounted`: the local mount path on success. -/
inductive MountResult where
  | ok : String → MountResult
  | failed : MountResult
  deriving Repr, DecidableEq

/-- The fixed local mount path of the R2 bucket. -/
def mountPath : String := "/data/moltbot"

/-- Modelled from the spec (§4.1): `ensureMounted()` checks mount-table
state; if already mounted it does no work and returns the mount path,
otherwise it performs one mount operation (creating the mount-point
directory if absent, never removing it) and returns the mount path. -/
def ensureMounted (s : MountState) : MountState × MountResult :=
  if s.mountTableMounted then (s, .ok mountPath)
  else
    ({ mountTableMounted := true, attempts := s.attempts + 1, mountPointExists := true },
     .ok mountPath)

/-- `N` successive invocations of `ensureMounted`, collecting each result. -/
def ensureMountedN : Nat → MountState → MountState × List MountResult
  | 0, s => (s, [])
  | n + 1, s =>
      let p := ensureMounted s
      let q := ensureMountedN n p.1
      (q.1, p.2 :: q.2)

/-- Modelled from the spec: the Readiness Waiter (`waitUntilReady`,
§4.5).  `ready e` / `timedOut e` carry the elapsed time at return. -/
inductive WaitResult where
  | ready : Nat → WaitResult
  | timedOut : Nat → WaitResult
  deriving Repr, DecidableEq

/-- The polling loop of the Readiness Waiter: poll, and if the endpoint does
not respond sleep one interval and retry, for a bounded number of polls. -/
def pollLoop (responds : Nat → Bool) (interval : Nat) : Nat → Nat → WaitResult
  | elapsed, 0 => .timedOut elapsed
  | elapsed, fuel + 1 =>
      if responds elapsed then .ready elapsed
      else pollLoop responds interval (elapsed + interval) fuel

/-- Modelled from the spec (§4.5): `waitUntilReady(endpoint, timeout)` polls
the control endpoint at a fixed interval until it responds or the total
elapsed time passes the deadline; the poll budget is `timeout / interval + 1`,
the least number of sleeps that carries the elapsed time past `timeout`. -/
def waitUntilReady (responds : Nat → Bool) (timeout interval : Nat) : WaitResult :=
  pollLoop responds interval 0 (timeout / interval + 1)

/-- Elapsed time at which a wait returned. -/
def elapsedOf : WaitResult → Nat
  | .ready e => e
  | .timedOut e => e

/-- Whether a wait timed out. -/
def isTimedOut : WaitResult → Bool
  | .timedOut _ => true
  | _ => false

theorem pollLoop_never (responds : Nat → Bool) (interval : Nat)
    (hnever : ∀ t, responds t = false) :
    ∀ (fuel elapsed : Nat),
      pollLoop responds interval elapsed fuel = .timedOut (elapsed + interval * fuel) := by
  intro fuel
  induction fuel with
  | zero => intro elapsed; simp [pollLoop]
  | succ f ih =>
      intro elapsed
      rw [pollLoop, hnever, if_neg (by simp), ih, Nat.mul_succ]
      congr 1
      omega

/-- Modelled from the spec (§4.2, §9): the inputs of the Restore Policy
freshness decision.  The sync-completion markers are the application-level
freshness signal written by the Sync Engine; the two mtime fields are the
filesystem modification times, available in the environment but unreliable
on the mount — the decision must not depend on them. -/
structure RestoreInput where
  remoteExists : Bool
  remoteMarker : Option Nat
  localMarker : Option Nat
  remoteMtime : Nat
  localMtime : Nat
  deriving Repr, DecidableEq

/-- The action a restore decision results in. -/
inductive RestoreAction where
  | restore : RestoreAction
  | skip : RestoreAction
  deriving Repr, DecidableEq

/-- Modelled from the spec (§4.2): no remote state means skip; remote state
with no completion marker means restore (stale-local fallback after a
crash); otherwise compare marker epochs and restore when remote is newer or
local has no marker. -/
def decideRestore (i : RestoreInput) : RestoreAction :=
  if !i.remoteExists then .skip
  else
    match i.remoteMarker with
    | none => .restore
    | some re =>
        match i.localMarker with
        | none => .restore
        | some le => if le < re then .restore else .skip

/-- The two directory trees the core shares: the mounted remote bucket and
the local state directory. -/
inductive Root where
  | remoteMount : Root
  | localState : Root
  deriving Repr, DecidableEq

/-- Modelled from the spec: the vocabulary of filesystem operations the
Mount Manager, Restore Policy and Sync Engine can perform against the two
roots.  `deleteTree` is the destructive operation the invariant forbids;
it is part of the vocabulary so that never emitting it is a statement. -/
inductive FsOp where
  | mkdirMountPoint : FsOp
  | copyTree : Root → Root → FsOp
  | upsertFile : Root → String → String → FsOp
  | writeMarkerFile : Root → Nat → FsOp
  | deleteTree : Root → FsOp
  deriving Repr, DecidableEq

/-- Modelled from the spec (§3, §6): the shared persistent state — the
remote bucket contents, the local state directory, the sync-completion
markers on each side, and the (unreliable) mtimes. -/
structure WorldState where
  remoteFiles : List (String × String)
  localFiles : List (String × String)
  remoteMarker : Option Nat
  localMarker : Option Nat
  remoteMtime : Nat
  localMtime : Nat
  deriving Repr, DecidableEq

/-- The Restore Policy's view of the world. -/
def restoreInputOf (s : WorldState) : RestoreInput :=
  ⟨!s.remoteFiles.isEmpty, s.remoteMarker, s.localMarker, s.remoteMtime, s.localMtime⟩

/-- Modelled from the spec (§4.2): `decideAndRestore` computes the one-shot
decision and, when it is `restore`, copies remote state (and its marker)
over local state — a single remote-to-local recursive copy, emitting no
other filesystem operation. -/
def decideAndRestore (s : WorldState) : RestoreAction × WorldState × List FsOp :=
  match decideRestore (restoreInputOf s) with
  | .restore =>
      (.restore,
       { s with localFiles := s.remoteFiles, localMarker := s.remoteMarker },
       [FsOp.copyTree .remoteMount .localState])
  | .skip => (.skip, s, [])

/-- Modelled from the spec (§4.1): at the world level the Mount Manager only
creates the local mount-point directory; it never touches the trees. -/
def ensureMountedOps (s : WorldState) : WorldState × List FsOp :=
  (s, [FsOp.mkdirMountPoint])

/-- Modelled from the spec (§4.3): the Sync Engine transfer is a
one-directional, per-file recursive upsert of the local tree into the
remote tree (`rsync -r --no-times` semantics, no `--delete`), followed by
writing the completion marker on the remote side. -/
def runSyncTransfer (s : WorldState) (clock : Nat) : WorldState × List FsOp :=
  ({ s with
      remoteFiles := s.localFiles.foldl (fun acc e => setKey acc e.1 e.2) s.remoteFiles,
      remoteMarker := some clock,
      remoteMtime := clock },
   s.localFiles.map (fun e => FsOp.upsertFile .remoteMount e.1 e.2) ++
     [FsOp.writeMarkerFile .remoteMount clock])

theorem lookupKey_none_forall {α : Type} (l : List (String × α)) (p : String)
    (h : lookupKey l p = none) : ∀ e ∈ l, e.1 ≠ p := by
  induction l with
  | nil => intro e he; cases he
  | cons hd tl ih =>
      intro e he
      obtain ⟨k', v'⟩ := hd
      by_cases hk : k' = p
      · simp [lookupKey, hk] at h
      · rcases List.mem_cons.mp he with rfl | he'
        · exact hk
        · exact ih (by simpa [lookupKey, hk] using h) e he'

theorem foldl_setKey_preserve {α : Type} (l : List (String × α)) (acc : List (String × α))
    (p : String) (h : ∀ e ∈ l, e.1 ≠ p) :
    lookupKey (l.foldl (fun a e => setKey a e.1 e.2) acc) p = lookupKey acc p := by
  induction l generalizing acc with
  | nil => rfl
  | cons hd tl ih =>
      rw [List.foldl_cons, ih _ (fun e he => h e (List.mem_cons_of_mem hd he)),
        lookupKey_setKey_ne _ _ (h hd (List.mem_cons_self hd tl))]

/-- Modelled from the spec: outcome of a transfer attempt inside `runSync`
(network, permission and disk-full-equivalent failures of the spec's error
taxonomy). -/
inductive TransferResult where
  | ok : Nat → TransferResult
  | netError : TransferResult
  | permError : TransferResult
  | diskFull : TransferResult
  deriving Repr, DecidableEq

/-- Whether a transfer attempt failed. -/
def isTransferError : TransferResult → Bool
  | .ok _ => false
  | _ => true

/-- Outcome of a `SyncRun` (spec §3). -/
inductive SyncOutcome where
  | success : Nat → SyncOutcome
  | failure : SyncOutcome
  | skippedConcurrent : SyncOutcome
  deriving Repr, DecidableEq

/-- Modelled from the spec (§4.3, §7): the state the Sync Engine and the
gateway share — whether the gateway process is (still) running, the last
recorded sync outcome, how many transfer attempts have been made, and the
remote completion marker. -/
structure GatewaySys where
  gatewayRunning : Bool
  lastOutcome : Option SyncOutcome
  syncAttempts : Nat
  completionMarker : Option Nat
  deriving Repr, DecidableEq

/-- Modelled from the spec (§4.3): `runSync` performs exactly one transfer
attempt and records its outcome as a `SyncRun`.  It is a total function of
the transfer result: a failed transfer becomes a recorded `failure` (no
exception escapes the Sync Engine, nothing retries within the run, the
completion marker is written only after success, and the gateway process is
untouched). -/
def runSyncRecord (t : TransferResult) (clock : Nat) (s : GatewaySys) : GatewaySys :=
  match t with
  | .ok n =>
      { s with lastOutcome := some (.success n), syncAttempts := s.syncAttempts + 1,
               completionMarker := some clock }
  | _ => { s with lastOutcome := some .failure, syncAttempts := s.syncAttempts + 1 }

/-- Modelled from the spec (§3, §4.3): the phase of one `runSync`
invocation — not yet invoked, holding the in-process mutual-exclusion flag
while transferring, finished its transfer, or returned
`skipped-due-to-concurrent-run`. -/
inductive RunPhase where
  | idle : RunPhase
  | running : RunPhase
  | doneOk : RunPhase
  | doneSkipped : RunPhase
  deriving Repr, DecidableEq, Fintype

/-- Modelled from the spec (§5): the joint state of two `runSync`
invocations and the in-process mutual-exclusion flag.  The worker is an
event-driven single-threaded context, so the check-and-acquire of the flag
at the head of `runSync` is atomic; invoking and finishing are separate
events whose interleavings the schedule chooses. -/
structure SyncSys where
  flagActive : Bool
  runA : RunPhase
  runB : RunPhase
  deriving Repr, DecidableEq, Fintype

/-- Events: each of the two invocations arriving (running its atomic guard)
and finishing its transfer. -/
inductive SyncEv where
  | invokeA : SyncEv
  | invokeB : SyncEv
  | finishA : SyncEv
  | finishB : SyncEv
  deriving Repr, DecidableEq, Fintype

/-- Modelled from the spec (§4.3): one event of the two-invocation system.
An arriving invocation that finds the flag set returns immediately with
`doneSkipped` (it neither queues nor blocks); otherwise it sets the flag and
starts the transfer.  A finishing transfer clears the flag. -/
def syncStep (s : SyncSys) : SyncEv → SyncSys
  | .invokeA =>
      match s.runA with
      | .idle =>
          if s.flagActive then { s with runA := .doneSkipped }
          else { s with flagActive := true, runA := .running }
      | _ => s
  | .invokeB =>
      match s.runB with
      | .idle =>
          if s.flagActive then { s with runB := .doneSkipped }
          else { s with flagActive := true, runB := .running }
      | _ => s
  | .finishA =>
      match s.runA with
      | .running => { s with flagActive := false, runA := .doneOk }
      | _ => s
  | .finishB =>
      match s.runB with
      | .running => { s with flagActive := false, runB := .doneOk }
      | _ => s

/-- Run a schedule of events. -/
def syncExec : SyncSys → List SyncEv → SyncSys
  | s, [] => s
  | s, e :: es => syncExec (syncStep s e) es

/-- Initial state: flag clear, neither invocation arrived. -/
def syncInit : SyncSys := ⟨false, .idle, .idle⟩

/-- Inductive invariant of the two-invocation system: the flag is set
exactly when a transfer is in progress, at most one transfer is in
progress, and an invocation skipped only because the other was (or ended
up) performing the transfer. -/
def syncInv (s : SyncSys) : Bool :=
  (s.flagActive == (s.runA == .running || s.runB == .running)) &&
  !(s.runA == .running && s.runB == .running) &&
  (!(s.runA == .doneSkipped) || (s.runB == .running || s.runB == .doneOk)) &&
  (!(s.runB == .doneSkipped) || (s.runA == .running || s.runA == .doneOk))

theorem syncInv_init : syncInv syncInit = true := by decide

theorem syncStep_inv : ∀ (s : SyncSys) (e : SyncEv),
    syncInv s = true → syncInv (syncStep s e) = true := by decide

theorem syncExec_inv (evs : List SyncEv) :
    ∀ s : SyncSys, syncInv s = true → syncInv (syncExec s evs) = true := by
  induction evs with
  | nil => intro s h; exact h
  | cons e es ih => intro s h; exact ih _ (syncStep_inv s e h)

theorem syncStep_persist : ∀ (s : SyncSys) (e : SyncEv),
    (s.runB = .doneSkipped → (syncStep s e).runB = .doneSkipped) ∧
    ((s.runA = .running ∨ s.runA = .doneOk) →
      ((syncStep s e).runA = .running ∨ (syncStep s e).runA = .doneOk)) := by decide

theorem syncExec_persist (evs : List SyncEv) :
    ∀ s : SyncSys,
      (s.runB = .doneSkipped → (syncExec s evs).runB = .doneSkipped) ∧
      ((s.runA = .running ∨ s.runA = .doneOk) →
        ((syncExec s evs).runA = .running ∨ (syncExec s evs).runA = .doneOk)) := by
  induction evs with
  | nil => intro s; exact ⟨fun h => h, fun h => h⟩
  | cons e es ih =>
      intro s
      refine ⟨fun h => ?_, fun h => ?_⟩
      · exact (ih (syncStep s e)).1 ((syncStep_persist s e).1 h)
      · exact (ih (syncStep s e)).2 ((syncStep_persist s e).2 h)

theorem syncStep_skip_immediate : ∀ s : SyncSys,
    syncInv s = true → s.runA = .running → s.runB = .idle →
    (syncStep s .invokeB).runB = .doneSkipped ∧
    (syncStep s .invokeB).runA = .running ∧
    (syncStep s .invokeB).flagActive = s.flagActive := by decide

/-- Modelled from the spec (§4.4, §9): the Process Lifecycle Manager
state.  `proc` is the process-table entry matching the gateway command
signature (its pid), `startedCount` counts actual process starts,
`pendingCalls` is the number of `ensureGatewayRunning` callers that have
not yet run their atomic find-or-start section, and `resolvedPids` collects
the handle each finished caller resolved to. -/
structure GwSys where
  proc : Option Nat
  startedCount : Nat
  pendingCalls : Nat
  resolvedPids : List Nat
  deriving Repr, DecidableEq

/-- Modelled from the spec (§4.4): one caller's `ensureGatewayRunning`.
It first searches the process table; if a matching instance exists the
caller resolves to its handle without starting anything, otherwise it
starts one new process (pid = current start counter) and resolves to it.
The find-or-start section is serialized (spec: concurrent cold-start
callers must not race to start two instances), so a schedule is just the
number of callers that have run it. -/
def ensureGatewayRunning (s : GwSys) : GwSys :=
  if s.pendingCalls = 0 then s
  else
    match s.proc with
    | some pid =>
        { s with pendingCalls := s.pendingCalls - 1, resolvedPids := pid :: s.resolvedPids }
    | none =>
        { proc := some s.startedCount, startedCount := s.startedCount + 1,
          pendingCalls := s.pendingCalls - 1,
          resolvedPids := s.startedCount :: s.resolvedPids }

/-- Run `k` caller sections. -/
def gwIter : Nat → GwSys → GwSys
  | 0, s => s
  | k + 1, s => gwIter k (ensureGatewayRunning s)

/-- Cold start: empty process table, `n` concurrent callers. -/
def gwColdInit (n : Nat) : GwSys := ⟨none, 0, n, []⟩

/-- Inductive invariant of a cold start: before any caller runs, nothing is
started; afterwards exactly one process (pid 0) exists and every resolved
caller holds its handle. -/
def gwInv (s : GwSys) : Prop :=
  (s.proc = none ∧ s.startedCount = 0 ∧ s.resolvedPids = []) ∨
  (s.proc = some 0 ∧ s.startedCount = 1 ∧ ∀ p ∈ s.resolvedPids, p = 0)

theorem gwInv_step {s : GwSys} (h : gwInv s) : gwInv (ensureGatewayRunning s) := by
  unfold ensureGatewayRunning
  by_cases hp : s.pendingCalls = 0
  · simpa [hp] using h
  · rw [if_neg hp]
    rcases h with ⟨h1, h2, h3⟩ | ⟨h1, h2, h3⟩
    · rw [h1]
      refine Or.inr ⟨?_, ?_, ?_⟩
      · rw [h2]
      · rw [h2]
      · intro p hp2
        rw [h3] at hp2
        simp only [List.mem_cons, List.not_mem_nil, or_false] at hp2
        rw [hp2, h2]
    · rw [h1]
      refine Or.inr ⟨rfl, h2, ?_⟩
      intro p hp2
      rcases List.mem_cons.mp hp2 with rfl | hmem
      · rfl
      · exact h3 p hmem

theorem gwInv_iter (k : Nat) : ∀ s : GwSys, gwInv s → gwInv (gwIter k s) := by
  induction k with
  | zero => intro s h; exact h
  | succ k ih => intro s h; exact ih _ (gwInv_step h)

theorem gw_pending_step (s : GwSys) :
    (ensureGatewayRunning s).pendingCalls = s.pendingCalls - 1 := by
  by_cases hp : s.pendingCalls = 0
  · simp [ensureGatewayRunning, hp]
  · cases hq : s.proc <;> simp [ensureGatewayRunning, hp, hq]

theorem gw_sum_step (s : GwSys) :
    (ensureGatewayRunning s).resolvedPids.length + (ensureGatewayRunning s).pendingCalls =
      s.resolvedPids.length + s.pendingCalls := by
  by_cases hp : s.pendingCalls = 0
  · simp [ensureGatewayRunning, hp]
  · cases hq : s.proc <;> simp [ensureGatewayRunning, hp, hq] <;> omega

theorem gw_pending_iter (k : Nat) :
    ∀ s : GwSys, (gwIter k s).pendingCalls = s.pendingCalls - k := by
  induction k with
  | zero => intro s; rfl
  | succ k ih =>
      intro s
      rw [gwIter, ih, gw_pending_step]
      omega

theorem gw_sum_iter (k : Nat) :
    ∀ s : GwSys, (gwIter k s).resolvedPids.length + (gwIter k s).pendingCalls =
      s.resolvedPids.length + s.pendingCalls := by
  induction k with
  | zero => intro s; rfl
  | succ k ih =>
      intro s
      rw [gwIter, ih, gw_sum_step]

/-- Warm invariant: with a process already in the table, its handle and the
start counter never change and every caller resolves to it. -/
def gwWarmInv (pid c : Nat) (s : GwSys) : Prop :=
  s.proc = some pid ∧ s.startedCount = c ∧ ∀ p ∈ s.resolvedPids, p = pid

theorem gwWarmInv_step {pid c : Nat} {s : GwSys} (h : gwWarmInv pid c s) :
    gwWarmInv pid c (ensureGatewayRunning s) := by
  obtain ⟨h1, h2, h3⟩ := h
  unfold ensureGatewayRunning
  by_cases hp : s.pendingCalls = 0
  · simpa [hp] using And.intro h1 (And.intro h2 h3)
  · rw [if_neg hp, h1]
    refine ⟨rfl, h2, ?_⟩
    intro p hp2
    rcases List.mem_cons.mp hp2 with rfl | hmem
    · rfl
    · exact h3 p hmem

theorem gwWarmInv_iter (k : Nat) {pid c : Nat} :
    ∀ s : GwSys, gwWarmInv pid c s → gwWarmInv pid c (gwIter k s) := by
  induction k with
  | zero => intro s h; exact h
  | succ k ih => intro s h; exact ih _ (gwWarmInv_step h)

theorem ensureMountedN_mounted (n : Nat) (s : MountState) (h : s.mountTableMounted = true) :
    (ensureMountedN n s).1.attempts = s.attempts ∧
    (ensureMountedN n s).2 = List.replicate n (MountResult.ok mountPath) := by
  induction n with
  | zero => exact ⟨rfl, rfl⟩
  | succ n ih =>
      obtain ⟨ih1, ih2⟩ := ih
      have hs : ensureMounted s = (s, .ok mountPath) := by simp [ensureMounted, h]
      constructor
      · simp only [ensureMountedN, hs]
        exact ih1
      · simp only [ensureMountedN, hs, List.replicate_succ, ih2]

/-- Claim C4: `ensureMounted` is idempotent — calling it `N` times when the
bucket is already mounted performs no further mount operation (hence at most
one in total), every call returns the same success result (the local mount
path), and from any state at most one mount operation is ever added. -/
theorem c4_ensureMounted_idempotent (n : Nat) (s : MountState)
    (h : s.mountTableMounted = true) :
    (ensureMountedN n s).1.attempts = s.attempts ∧
    (ensureMountedN n s).2 = List.replicate n (MountResult.ok mountPath) ∧
    (∀ (m : Nat) (w : MountState), (ensureMountedN m w).1.attempts ≤ w.attempts + 1) := by
  refine ⟨(ensureMountedN_mounted n s h).1, (ensureMountedN_mounted n s h).2, ?_⟩
  intro m w
  cases hw : w.mountTableMounted
  · cases m with
    | zero => exact Nat.le_succ _
    | succ m =>
        have hstep : ensureMounted w =
            (⟨true, w.attempts + 1, true⟩, .ok mountPath) := by
          simp [ensureMounted, hw]
        simp only [ensureMountedN, hstep]
        rw [(ensureMountedN_mounted m ⟨true, w.attempts + 1, true⟩ rfl).1]
  · rw [(ensureMountedN_mounted m w hw).1]
    exact Nat.le_succ _

/-- Witness for C4: three calls on an already-mounted state. -/
theorem c4_ensureMounted_idempotent_witness :
    (ensureMountedN 3 ⟨true, 0, true⟩).1.attempts = 0 ∧
    (ensureMountedN 3 ⟨true, 0, true⟩).2 = List.replicate 3 (MountResult.ok mountPath) :=
  ⟨(c4_ensureMounted_idempotent 3 ⟨true, 0, true⟩ rfl).1,
   (c4_ensureMounted_idempotent 3 ⟨true, 0, true⟩ rfl).2.1⟩

/-- Claim C5: on an endpoint that never responds, `waitUntilReady`
terminates (it is a total function of a bounded poll budget) and returns
`timedOut` with an elapsed time at or after the configured deadline and at
most one interval beyond it. -/
theorem c5_waitUntilReady_timeout (responds : Nat → Bool) (timeout interval : Nat)
    (hi : 0 < interval) (hnever : ∀ t, responds t = false) :
    isTimedOut (waitUntilReady responds timeout interval) = true ∧
    timeout ≤ elapsedOf (waitUntilReady responds timeout interval) ∧
    elapsedOf (waitUntilReady responds timeout interval) ≤ timeout + interval := by
  rw [waitUntilReady, pollLoop_never responds interval hnever]
  have h1 : interval * (timeout / interval) + timeout % interval = timeout :=
    Nat.div_add_mod timeout interval
  have h2 : timeout % interval < interval := Nat.mod_lt timeout hi
  have h3 : interval * (timeout / interval + 1) = interval * (timeout / interval) + interval := by
    rw [Nat.mul_add, Nat.mul_one]
  have key : ∀ A r : Nat, A + r = timeout → r < interval →
      timeout ≤ A + interval ∧ A + interval ≤ timeout + interval := by
    intro A r hA hr
    omega
  obtain ⟨k1, k2⟩ := key _ _ h1 h2
  refine ⟨rfl, ?_, ?_⟩
  · simp only [elapsedOf, Nat.zero_add, h3]
    exact k1
  · simp only [elapsedOf, Nat.zero_add, h3]
    exact k2

/-- Witness for C5: a dead endpoint, 15000 ms timeout, 1000 ms interval. -/
theorem c5_waitUntilReady_timeout_witness :
    isTimedOut (waitUntilReady (fun _ => false) 15000 1000) = true ∧
    15000 ≤ elapsedOf (waitUntilReady (fun _ => false) 15000 1000) ∧
    elapsedOf (waitUntilReady (fun _ => false) 15000 1000) ≤ 15000 + 1000 :=
  c5_waitUntilReady_timeout (fun _ => false) 15000 1000 (by decide) (fun _ => rfl)

/-- Claim C6: the Restore Policy freshness decision is a function of the
remote-exists flag and the sync-completion markers only — two inputs that
agree on those (whatever their filesystem mtimes) decide alike; remote state
present with no marker always decides `restore`; and `decideAndRestore`
then copies remote state to local. -/
theorem c6_marker_not_mtime :
    (∀ i j : RestoreInput, i.remoteExists = j.remoteExists →
      i.remoteMarker = j.remoteMarker → i.localMarker = j.localMarker →
      decideRestore i = decideRestore j) ∧
    (∀ i : RestoreInput, i.remoteExists = true → i.remoteMarker = none →
      decideRestore i = RestoreAction.restore) ∧
    (∀ s : WorldState, s.remoteFiles ≠ [] → s.remoteMarker = none →
      (decideAndRestore s).1 = RestoreAction.restore ∧
      (decideAndRestore s).2.1.localFiles = s.remoteFiles) := by
  refine ⟨?_, ?_, ?_⟩
  · intro i j h1 h2 h3
    cases i
    cases j
    simp only at h1 h2 h3
    subst h1
    subst h2
    subst h3
    rfl
  · intro i h1 h2
    simp [decideRestore, h1, h2]
  · intro s h1 h2
    have hne : s.remoteFiles.isEmpty = false := by
      cases hc : s.remoteFiles
      · exact absurd hc h1
      · rfl
    have hdec : decideRestore (restoreInputOf s) = .restore := by
      simp [decideRestore, restoreInputOf, hne, h2]
    constructor <;> simp [decideAndRestore, hdec]

/-- Witness for C6: remote data present, no marker anywhere, mtimes differ. -/
theorem c6_marker_not_mtime_witness :
    decideRestore ⟨true, none, none, 17, 99⟩ = RestoreAction.restore :=
  c6_marker_not_mtime.2.1 ⟨true, none, none, 17, 99⟩ rfl rfl

/-- Claim C1: with remote data present and local state empty, the Restore
Policy decides `restore`, performs exactly one remote-to-local recursive
copy and leaves the remote tree untouched; the Mount Manager at most
creates the mount-point directory; and the Sync Engine never deletes or
overwrites a remote entry that the local tree lacks and emits no delete
or copy-into-remote tree operation. -/
theorem c1_no_destructive_restore (s : WorldState)
    (hr : s.remoteFiles ≠ []) (_hl : s.localFiles = []) (hlm : s.localMarker = none) :
    ((decideAndRestore s).1 = RestoreAction.restore ∧
     (decideAndRestore s).2.1.localFiles = s.remoteFiles ∧
     (decideAndRestore s).2.1.remoteFiles = s.remoteFiles ∧
     (decideAndRestore s).2.2 = [FsOp.copyTree Root.remoteMount Root.localState]) ∧
    (∀ w : WorldState, (ensureMountedOps w).1 = w ∧
      ∀ op ∈ (ensureMountedOps w).2, op = FsOp.mkdirMountPoint) ∧
    (∀ (w : WorldState) (clock : Nat),
      (∀ p d, lookupKey w.remoteFiles p = some d → lookupKey w.localFiles p = none →
        lookupKey (runSyncTransfer w clock).1.remoteFiles p = some d) ∧
      ∀ op ∈ (runSyncTransfer w clock).2,
        (∀ r, op ≠ FsOp.deleteTree r) ∧ (∀ r, op ≠ FsOp.copyTree r Root.remoteMount)) := by
  refine ⟨?_, ?_, ?_⟩
  · have hne : s.remoteFiles.isEmpty = false := by
      cases hc : s.remoteFiles
      · exact absurd hc hr
      · rfl
    have hdec : decideRestore (restoreInputOf s) = .restore := by
      cases hrm : s.remoteMarker <;>
        simp [decideRestore, restoreInputOf, hne, hlm, hrm]
    refine ⟨?_, ?_, ?_, ?_⟩ <;> simp [decideAndRestore, hdec]
  · intro w
    refine ⟨rfl, ?_⟩
    intro op hop
    simpa [ensureMountedOps] using hop
  · intro w clock
    constructor
    · intro p d hrem hloc
      have hforall := lookupKey_none_forall w.localFiles p hloc
      simp only [runSyncTransfer]
      rw [foldl_setKey_preserve _ _ _ hforall]
      exact hrem
    · intro op hop
      simp only [runSyncTransfer, List.mem_append, List.mem_map] at hop
      rcases hop with ⟨e, _, rfl⟩ | hop
      · exact ⟨fun r => by simp, fun r => by simp⟩
      · simp only [List.mem_singleton] at hop
        subst hop
        exact ⟨fun r => by simp, fun r => by simp⟩

/-- Witness for C1: remote holds one file, local is empty. -/
theorem c1_no_destructive_restore_witness :
    (decideAndRestore ⟨[("cfg.json", "remote-data")], [], some 5, none, 0, 0⟩).1 =
        RestoreAction.restore ∧
    (decideAndRestore ⟨[("cfg.json", "remote-data")], [], some 5, none, 0, 0⟩).2.1.localFiles =
        [("cfg.json", "remote-data")] :=
  ⟨(c1_no_destructive_restore ⟨[("cfg.json", "remote-data")], [], some 5, none, 0, 0⟩
      (by simp) rfl rfl).1.1,
   (c1_no_destructive_restore ⟨[("cfg.json", "remote-data")], [], some 5, none, 0, 0⟩
      (by simp) rfl rfl).1.2.1⟩

/-- Claim C7: a transfer failure inside `runSync` is recorded as a failed
`SyncRun` and nothing else happens: the gateway stays as it was (no
process-fatal error), exactly one transfer attempt is consumed (no retry
within the run — the next periodic tick retries), and the completion marker
is not advanced on failure. -/
theorem c7_sync_failure_contained (t : TransferResult) (clock : Nat) (s : GatewaySys) :
    (runSyncRecord t clock s).gatewayRunning = s.gatewayRunning ∧
    (runSyncRecord t clock s).syncAttempts = s.syncAttempts + 1 ∧
    (isTransferError t = true →
      (runSyncRecord t clock s).lastOutcome = some SyncOutcome.failure ∧
      (runSyncRecord t clock s).completionMarker = s.completionMarker) := by
  cases t <;> simp [runSyncRecord, isTransferError]

/-- Witness for C7: a network failure against a running gateway. -/
theorem c7_sync_failure_contained_witness :
    (runSyncRecord TransferResult.netError 7 ⟨true, none, 0, some 3⟩).gatewayRunning = true ∧
    (runSyncRecord TransferResult.netError 7 ⟨true, none, 0, some 3⟩).lastOutcome =
      some SyncOutcome.failure :=
  ⟨(c7_sync_failure_contained TransferResult.netError 7 ⟨true, none, 0, some 3⟩).1,
   ((c7_sync_failure_contained TransferResult.netError 7 ⟨true, none, 0, some 3⟩).2.2 rfl).1⟩

/-- Claim C2: mutual exclusion of `runSync`.  (1) Under every schedule at
most one invocation is ever mid-transfer; (2) an invocation arriving while
the other is mid-transfer returns `skipped-due-to-concurrent-run` in that
very step — it neither queues nor blocks nor touches the transfer in
flight; (3) continuing under any schedule, the skipped run stays skipped
and the other run is the one that performs (and may finish) the transfer —
exactly one of the two transfers. -/
theorem c2_single_active_sync (evs1 evs2 : List SyncEv)
    (hA : (syncExec syncInit evs1).runA = RunPhase.running)
    (hB : (syncExec syncInit evs1).runB = RunPhase.idle) :
    (∀ evs : List SyncEv,
      ¬((syncExec syncInit evs).runA = RunPhase.running ∧
        (syncExec syncInit evs).runB = RunPhase.running)) ∧
    ((syncStep (syncExec syncInit evs1) SyncEv.invokeB).runB = RunPhase.doneSkipped ∧
     (syncStep (syncExec syncInit evs1) SyncEv.invokeB).runA = RunPhase.running) ∧
    ((syncExec (syncStep (syncExec syncInit evs1) SyncEv.invokeB) evs2).runB =
        RunPhase.doneSkipped ∧
     ((syncExec (syncStep (syncExec syncInit evs1) SyncEv.invokeB) evs2).runA =
          RunPhase.running ∨
      (syncExec (syncStep (syncExec syncInit evs1) SyncEv.invokeB) evs2).runA =
          RunPhase.doneOk)) := by
  have hInv1 : syncInv (syncExec syncInit evs1) = true :=
    syncExec_inv evs1 syncInit syncInv_init
  have hmutex : ∀ s : SyncSys, syncInv s = true →
      ¬(s.runA = RunPhase.running ∧ s.runB = RunPhase.running) := by decide
  obtain ⟨hs1, hs2, _⟩ := syncStep_skip_immediate (syncExec syncInit evs1) hInv1 hA hB
  refine ⟨?_, ⟨hs1, hs2⟩, ?_, ?_⟩
  · intro evs
    exact hmutex _ (syncExec_inv evs syncInit syncInv_init)
  · exact (syncExec_persist evs2 _).1 hs1
  · exact (syncExec_persist evs2 _).2 (Or.inl hs2)

/-- Witness for C2: run A arrives, B arrives while A is transferring, A
finishes — B ends skipped and A ends with the transfer done. -/
theorem c2_single_active_sync_witness :
    (syncExec (syncStep (syncExec syncInit [SyncEv.invokeA]) SyncEv.invokeB)
        [SyncEv.finishA]).runB = RunPhase.doneSkipped ∧
    ((syncExec (syncStep (syncExec syncInit [SyncEv.invokeA]) SyncEv.invokeB)
        [SyncEv.finishA]).runA = RunPhase.running ∨
     (syncExec (syncStep (syncExec syncInit [SyncEv.invokeA]) SyncEv.invokeB)
        [SyncEv.finishA]).runA = RunPhase.doneOk) :=
  ⟨((c2_single_active_sync [SyncEv.invokeA] [SyncEv.finishA] rfl rfl).2.2).1,
   ((c2_single_active_sync [SyncEv.invokeA] [SyncEv.finishA] rfl rfl).2.2).2⟩

/-- Claim C3: at most one gateway process per container.  On a cold start
with `n` concurrent callers, after any number of caller sections at most
one process has been started and every resolved caller holds the same
handle (pid 0); once all `n` callers have run, all of them are resolved,
exactly one process was started; and with an instance already in the
process table, `ensureGatewayRunning` returns its handle to every caller
and never starts a duplicate. -/
theorem c3_at_most_one_gateway (n k : Nat) (hn : 1 ≤ n) :
    ((gwIter k (gwColdInit n)).startedCount ≤ 1) ∧
    (∀ p ∈ (gwIter k (gwColdInit n)).resolvedPids, p = 0) ∧
    ((gwIter n (gwColdInit n)).pendingCalls = 0 ∧
     (gwIter n (gwColdInit n)).resolvedPids.length = n ∧
     (gwIter n (gwColdInit n)).startedCount = 1) ∧
    (∀ (pid c m j : Nat),
      (gwIter j ⟨some pid, c, m, []⟩).startedCount = c ∧
      ∀ p ∈ (gwIter j ⟨some pid, c, m, []⟩).resolvedPids, p = pid) := by
  have hInit : gwInv (gwColdInit n) := Or.inl ⟨rfl, rfl, rfl⟩
  have hInvK : gwInv (gwIter k (gwColdInit n)) := gwInv_iter k _ hInit
  have hInvN : gwInv (gwIter n (gwColdInit n)) := gwInv_iter n _ hInit
  have hpend : (gwIter n (gwColdInit n)).pendingCalls = 0 := by
    rw [gw_pending_iter]
    simp [gwColdInit]
  have hlen : (gwIter n (gwColdInit n)).resolvedPids.length = n := by
    have hs := gw_sum_iter n (gwColdInit n)
    have hbase : (gwColdInit n).resolvedPids.length + (gwColdInit n).pendingCalls = n := by
      simp [gwColdInit]
    omega
  refine ⟨?_, ?_, ⟨hpend, hlen, ?_⟩, ?_⟩
  · rcases hInvK with ⟨_, h2, _⟩ | ⟨_, h2, _⟩ <;> omega
  · rcases hInvK with ⟨_, _, h3⟩ | ⟨_, _, h3⟩
    · rw [h3]
      intro p hp
      cases hp
    · exact h3
  · rcases hInvN with ⟨_, _, h3⟩ | ⟨_, h2, _⟩
    · rw [h3] at hlen
      simp at hlen
      omega
    · exact h2
  · intro pid c m j
    have hw : gwWarmInv pid c (gwIter j ⟨some pid, c, m, []⟩) :=
      gwWarmInv_iter j _ ⟨rfl, rfl, by intro p hp; cases hp⟩
    exact ⟨hw.2.1, hw.2.2⟩

/-- Witness for C3: a cold start with two concurrent callers, both run. -/
theorem c3_at_most_one_gateway_witness :
    (gwIter 2 (gwColdInit 2)).pendingCalls = 0 ∧
    (gwIter 2 (gwColdInit 2)).resolvedPids.length = 2 ∧
    (gwIter 2 (gwColdInit 2)).startedCount = 1 :=
  (c3_at_most_one_gateway 2 2 (by decide)).2.2.1
